import Mathlib

/-!
Verification of `pydca/plmdca/plmdcaBackend.cpp` (the plmDCA optimization
backend adapter).

The file shallowly embeds the two `extern "C"` entry points
(`plmdcaBackend`, `freeFieldsAndCouplings`) and the local
`ObjectiveFunction` class.  Machine `unsigned int` arithmetic is modelled
over `Nat` with explicit reduction modulo `2^32`; the store into a C `int`
is modelled by two's-complement conversion to `Int`.

The `PlmDCA` gradient engine (declared in `include/plmdca.h`; its body is
not part of the sources shown) and the external L-BFGS optimizer driver
are modelled from the specification as abstract collaborators: the engine
is a structure of functions, the driver an abstract per-iteration update
together with an abstract convergence test, iterated at most
`max_iterations` times.  Scalar floating-point values are abstracted by a
type parameter `F`.
-/

/-- `2^32`, the modulus of C `unsigned int` arithmetic. -/
def UINT_MOD : Nat := 4294967296

/-- `2^31 - 1`, the largest value representable in a C 32-bit `int`. -/
def INT_MAX : Nat := 2147483647

/-- C `unsigned int` subtraction `seqs_len - 1` (wraps at `0`). -/
def usub1 (L : Nat) : Nat := (L + (UINT_MOD - 1)) % UINT_MOD

/-- The `unsigned int` value of the C expression
`seqs_len * num_site_states + seqs_len * (seqs_len - 1) * num_site_states * num_site_states / 2`
from line 47 of `plmdcaBackend.cpp`: every multiplication and the final
addition are performed modulo `2^32`; the division is C unsigned
(truncating) division. -/
def total_num_params_u (L Q : Nat) : Nat :=
  ((L * Q) % UINT_MOD +
    ((((L * usub1 L) % UINT_MOD) * Q % UINT_MOD) * Q % UINT_MOD) / 2) % UINT_MOD

/-- Conversion of an `unsigned int` value to a C `int`
(two's-complement wrap, the behavior of the targeted compilers). -/
def toCInt (v : Nat) : Int := if v ≤ INT_MAX then (v : Int) else (v : Int) - (UINT_MOD : Int)

/-- The value of the C `int` variable `total_num_params`. -/
def total_num_params (L Q : Nat) : Int := toCInt (total_num_params_u L Q)

/-- `L * (L - 1)` is always even: the truncating `/ 2` drops no remainder. -/
lemma even_L_mul_pred (L : Nat) : 2 ∣ L * (L - 1) := by
  cases L with
  | zero => simp
  | succ n =>
    obtain ⟨m, hm⟩ := Nat.even_mul_succ_self n
    refine ⟨m, ?_⟩
    rw [Nat.succ_sub_one, Nat.mul_comm]
    omega

lemma usub1_eq (L : Nat) (h1 : 1 ≤ L) (hL : L < UINT_MOD) : usub1 L = L - 1 := by
  unfold usub1
  have he : L + (UINT_MOD - 1) = (L - 1) + UINT_MOD := by
    have : 0 < UINT_MOD := by norm_num [UINT_MOD]
    omega
  rw [he, Nat.add_mod_right, Nat.mod_eq_of_lt (by omega)]

/-- Under the stated bounds the machine computation of `total_num_params`
is exact: it equals the mathematical value, with the truncating division
losing nothing because `L * (L - 1)` is even. -/
lemma total_num_params_exact (L Q : Nat) (h1 : 1 ≤ L) (hQ : 1 ≤ Q) (hL : L < UINT_MOD)
    (hbig : L * (L - 1) * Q * Q < UINT_MOD)
    (hsum : L * Q + L * (L - 1) * Q * Q / 2 ≤ INT_MAX) :
    total_num_params L Q = ((L * Q + L * (L - 1) / 2 * Q ^ 2 : Nat) : Int) := by
  have hQpos : 0 < Q := hQ
  have h2 : L * (L - 1) ≤ L * (L - 1) * Q * Q := by
    calc L * (L - 1) ≤ L * (L - 1) * Q := Nat.le_mul_of_pos_right _ hQpos
    _ ≤ L * (L - 1) * Q * Q := Nat.le_mul_of_pos_right _ hQpos
  have h3 : L * (L - 1) * Q ≤ L * (L - 1) * Q * Q := Nat.le_mul_of_pos_right _ hQpos
  have hM : (0:Nat) < UINT_MOD := by norm_num [UINT_MOD]
  have hLQ : L * Q < UINT_MOD := by
    have : L * Q ≤ INT_MAX := le_trans (Nat.le_add_right _ _) hsum
    have : INT_MAX < UINT_MOD := by norm_num [INT_MAX, UINT_MOD]
    omega
  unfold total_num_params total_num_params_u
  rw [usub1_eq L h1 hL]
  rw [Nat.mod_eq_of_lt (lt_of_le_of_lt h2 hbig)]
  rw [Nat.mod_eq_of_lt (lt_of_le_of_lt h3 hbig)]
  rw [Nat.mod_eq_of_lt hbig]
  rw [Nat.mod_eq_of_lt hLQ]
  have hfin : L * Q + L * (L - 1) * Q * Q / 2 < UINT_MOD := by
    have : INT_MAX < UINT_MOD := by norm_num [INT_MAX, UINT_MOD]
    omega
  rw [Nat.mod_eq_of_lt hfin]
  unfold toCInt
  rw [if_pos hsum]
  congr 1
  -- the truncating division is exact: L * (L - 1) is even
  obtain ⟨k, hk⟩ : 2 ∣ L * (L - 1) := even_L_mul_pred L
  have hdiv1 : L * (L - 1) * Q * Q / 2 = k * Q * Q := by
    rw [hk]
    rw [show 2 * k * Q * Q = 2 * (k * Q * Q) by ring]
    exact Nat.mul_div_cancel_left _ (by norm_num)
  have hdiv2 : L * (L - 1) / 2 = k := by
    rw [hk]; exact Nat.mul_div_cancel_left _ (by norm_num)
  rw [hdiv1, hdiv2, pow_two]
  ring

variable {F : Type}

/-- Diagnostic / side-effect events observable during a call to the
backend: `std::cerr` and `printf`/`fprintf` output, the construction of
the static engine, buffer allocation, and the driver's callback activity. -/
inductive Event (F : Type) where
  | cerrThreads : Event F
  | engineConstructed : Event F
  | allocCalled : Int → Event F
  | allocFailedMsg : Event F
  | initFieldsCalled : Event F
  | lbfgsCalled : Int → Event F
  | evalCalled : Event F
  | descentStep : Event F
  | progressLog : Int → F → F → F → F → Event F
  | finalLog : Int → F → Event F
  deriving DecidableEq

/-- Modelled from the spec: the `PlmDCA` Pseudolikelihood Gradient Engine.
Its class body (`include/plmdca.h` implementation) is not among the shown
sources; per spec section 4.1 it offers a deterministic initial parameter
vector (`initFieldsAndCouplings`) and a total evaluation
(`gradient(x, g)`) returning the objective value and the gradient
contents, retaining no state between calls. -/
structure Engine (F : Type) where
  initFC : List F
  gradient : List F → F × List F

/-- Modelled from the spec: the external L-BFGS Optimizer Driver
(section 2, section 6).  Its line search / parameter update and its
convergence test are abstract; `update_length` records that the update
acts in place on the caller's buffer and therefore cannot change its
length.  `norm` and `stepsize` are the diagnostic quantities the driver
hands to the progress callback. -/
structure Driver (F : Type) where
  update : List F → List F → F → List F
  converged : List F → List F → Bool
  norm : List F → F
  stepsize : F
  update_length : ∀ x g fx, (update x g fx).length = x.length

/-- Driver status code for success / convergence. -/
def LBFGS_SUCCESS : Int := 0

/-- Modelled from the spec: the opaque non-success status the driver
reports when the iteration cap stops it. -/
def LBFGS_STOP_MAXITER : Int := 2

/-- Modelled from the spec: the opaque status the driver reports when the
progress callback requests termination (unreachable here, since the
embedded progress callback always returns `0`). -/
def LBFGS_CANCELED : Int := -1

/-- The optimization state visible to the callbacks: the parameter buffer
and the gradient buffer (both passed as `const` pointers in the source). -/
structure OptState (F : Type) where
  x : List F
  g : List F
  deriving DecidableEq

/-- `ObjectiveFunction::progress` (and its static trampoline `_progress`):
when `logging` is set it prints the iteration index, objective value,
parameter norm, gradient norm and step size to `stderr`, otherwise it
prints nothing; it returns `0` and leaves the optimization state exactly
as received (the source body only calls `fprintf` and returns). -/
def ObjectiveFunction.progress (logging : Bool) (s : OptState F) (fx xnorm gnorm step : F)
    (n k ls : Int) : Int × List (Event F) × OptState F :=
  (0, if logging then [Event.progressLog k fx xnorm gnorm step] else [], s)

/-- `ObjectiveFunction::evaluate` (and its static trampoline `_evaluate`):
it forwards to `plmdca_inst.gradient(x, g)` and returns the objective
value, with no handling of its own.  The engine's gradient is given a
failure channel here (`none` models a C++ exception escaping
`PlmDCA::gradient`) so that behavior at the callback boundary is
statable; the callback body adds no try/catch. -/
def ObjectiveFunction.evaluate (gradientFn : List F → Option (F × List F))
    (x g : List F) (n : Int) (step : F) : Option (F × List F) :=
  gradientFn x

/-- Modelled from the spec: the driver's iteration loop.  One iteration
performs the line-search/update, an evaluation callback, and a progress
callback; the loop stops at convergence, on a nonzero progress return, or
when the iteration cap is exhausted.  Returns
`(status, fx, final buffer, events)`. -/
def lbfgsLoop (E : Engine F) (D : Driver F) (logging : Bool) (N : Int) :
    Nat → Int → List F → F → List F → Int × F × List F × List (Event F)
  | 0, _k, x, fx, _g => (LBFGS_STOP_MAXITER, fx, x, [])
  | fuel+1, k, x, fx, g =>
    let x' := D.update x g fx
    let fg := E.gradient x'
    let pr := ObjectiveFunction.progress logging ⟨x', fg.2⟩ fg.1 (D.norm x') (D.norm fg.2)
      D.stepsize N k 0
    let here := Event.descentStep :: Event.evalCalled :: pr.2.1
    if pr.1 ≠ 0 then (LBFGS_CANCELED, fg.1, x', here)
    else if D.converged x' fg.2 then (LBFGS_SUCCESS, fg.1, x', here)
    else
      let rest := lbfgsLoop E D logging N fuel (k+1) x' fg.1 fg.2
      (rest.1, rest.2.1, rest.2.2.1, here ++ rest.2.2.2)

/-- Modelled from the spec: the external call
`lbfgs(N, m_x, &fx, _evaluate, _progress, this, &param)`.  The driver
first evaluates at the initial point (to report status), then runs up to
`max_iterations` descent iterations; the buffer is updated in place and
its final contents are returned with the termination status. -/
def lbfgs (E : Engine F) (D : Driver F) (logging : Bool) (N : Int) (maxIter : Nat)
    (x0 : List F) : Int × F × List F × List (Event F) :=
  let fg0 := E.gradient x0
  let r := lbfgsLoop E D logging N maxIter 1 x0 fg0.1 fg0.2
  (r.1, r.2.1, r.2.2.1, Event.evalCalled :: r.2.2.2)

/-- The state of the `ObjectiveFunction` object after `run`, together with
`run`'s return status and the diagnostic events emitted. -/
structure RunResult (F : Type) where
  ret : Int
  m_x : Option (List F)
  events : List (Event F)

/-- `ObjectiveFunction::getFieldsAndCouplings()`: returns the `m_x`
member. -/
def RunResult.getFieldsAndCouplings (r : RunResult F) : Option (List F) := r.m_x

/-- In-place write of `src` into an allocated buffer `buf`: the buffer's
allocation size cannot change, and when `src` has exactly the buffer's
length the contents become `src`.  Models
`plmdca_inst.initFieldsAndCouplings(m_x)`. -/
def writeInto (buf src : List F) : List F := src.take buf.length ++ buf.drop src.length

/-- `ObjectiveFunction::run(N)`: allocates the parameter buffer with
`lbfgs_malloc(N)` (allocation success is the model parameter `allocOk`;
the fresh buffer's contents are indeterminate, modelled as `default`);
on failure prints the error and returns `1` without initializing
parameters or invoking the optimizer.  Otherwise it sets the driver
parameters (`epsilon = 1E-3`, `max_iterations = num_iterations`,
`max_linesearch = 5`, `ftol = 1E-4`, `m = 5`), initializes the buffer via
the engine, invokes the driver, optionally logs the final status and
objective value, and returns the driver's status. -/
def ObjectiveFunction.run [Inhabited F] (E : Engine F) (D : Driver F)
    (num_iterations : Nat) (logging : Bool) (allocOk : Bool) (N : Int) : RunResult F :=
  if allocOk then
    let buf0 : List F := List.replicate N.toNat default
    let x0 := writeInto buf0 E.initFC
    let r := lbfgs E D logging N num_iterations x0
    { ret := r.1
      m_x := some r.2.2.1
      events := Event.allocCalled N :: Event.initFieldsCalled :: Event.lbfgsCalled N :: r.2.2.2
        ++ (if logging then [Event.finalLog r.1 r.2.1] else []) }
  else
    { ret := 1, m_x := none, events := [Event.allocCalled N, Event.allocFailedMsg] }

/-- The arguments the engine constructor receives:
`PlmDCA(msa_file, biomolecule, seqs_len, num_site_states, seqid, lambda_h, lambda_J, num_threads)`. -/
structure EngineArgs (F : Type) where
  msa_file : String
  biomolecule : Nat
  seqs_len : Nat
  num_site_states : Nat
  seqid : F
  lambda_h : F
  lambda_J : F
  num_threads : Nat

/-- The arguments of one `plmdcaBackend` call. -/
structure Args (F : Type) where
  biomolecule : Nat
  num_site_states : Nat
  msa_file : String
  seqs_len : Nat
  seqid : F
  lambda_h : F
  lambda_J : F
  max_iteration : Nat
  num_threads : Nat
  verbose : Bool

/-- The engine-constructor arguments drawn from a call's arguments. -/
def Args.engineArgs (a : Args F) : EngineArgs F :=
  ⟨a.msa_file, a.biomolecule, a.seqs_len, a.num_site_states, a.seqid, a.lambda_h,
    a.lambda_J, a.num_threads⟩

/-- The function-local `static` variables of `plmdcaBackend`
(`plmdca_inst`, `num_iterations`, `logging`): initialized from the
arguments of the first call that reaches them, retained for the rest of
the process. -/
structure Statics (F : Type) where
  plmdca_inst : Engine F
  num_iterations : Nat
  logging : Bool

/-- What one `plmdcaBackend` call yields at its boundary: either the
`std::runtime_error` escapes (`thrown`, no return value produced) or the
function returns the `h_and_J` handle obtained from
`getFieldsAndCouplings`. -/
inductive CallRes (F : Type) where
  | thrown : CallRes F
  | returned : Option (List F) → CallRes F
  deriving DecidableEq

/-- `plmdcaBackend`: checks the thread configuration (when OpenMP support
is not compiled in, `num_threads > 1` prints to `std::cerr` and throws
`std::runtime_error` before anything else), computes `total_num_params`
from the current call's `seqs_len` and `num_site_states`, initializes the
function-local statics on the first call that reaches them, runs the
`ObjectiveFunction`, and returns the handle from
`getFieldsAndCouplings()` (the status returned by `run` is discarded).
The output is the call result, the emitted events, and the statics after
the call. -/
def plmdcaBackend [Inhabited F] (openmp : Bool) (mkEngine : EngineArgs F → Engine F)
    (D : Driver F) (allocOk : Bool) (a : Args F) (st : Option (Statics F)) :
    CallRes F × List (Event F) × Option (Statics F) :=
  if ¬ openmp ∧ 1 < a.num_threads then
    (.thrown, [Event.cerrThreads], st)
  else
    let N : Int := total_num_params a.seqs_len a.num_site_states
    let s : Statics F :=
      match st with
      | some s => s
      | none => ⟨mkEngine a.engineArgs, a.max_iteration, a.verbose⟩
    let ctorEvents : List (Event F) :=
      match st with
      | some _ => []
      | none => [Event.engineConstructed]
    let r := ObjectiveFunction.run s.plmdca_inst D s.num_iterations s.logging allocOk N
    (.returned r.getFieldsAndCouplings, ctorEvents ++ r.events, some s)

/-- `freeFieldsAndCouplings(h_and_J)`, over an explicit heap of live
allocations (identified by ids): a null handle leaves the heap untouched
and performs zero `delete[]` calls; a non-null handle performs exactly
one `delete[]`, removing the allocation from the heap.  The source
contains no error path: the function always returns normally. -/
def freeFieldsAndCouplings (heap : List Nat) (h_and_J : Option Nat) : List Nat × Nat :=
  match h_and_J with
  | none => (heap, 0)
  | some p => (heap.erase p, 1)

lemma writeInto_length (buf src : List F) : (writeInto buf src).length = buf.length := by
  simp only [writeInto, List.length_append, List.length_take, List.length_drop]
  omega

lemma writeInto_eq (buf src : List F) (h : src.length = buf.length) :
    writeInto buf src = src := by
  unfold writeInto
  rw [← h, List.take_length]
  rw [h, List.drop_length, List.append_nil]

lemma lbfgsLoop_length (E : Engine F) (D : Driver F) (logging : Bool) (N : Int) :
    ∀ (fuel : Nat) (k : Int) (x : List F) (fx : F) (g : List F),
      (lbfgsLoop E D logging N fuel k x fx g).2.2.1.length = x.length := by
  intro fuel
  induction fuel with
  | zero => intro k x fx g; rfl
  | succ n ih =>
    intro k x fx g
    simp only [lbfgsLoop, ObjectiveFunction.progress, ne_eq, not_true_eq_false,
      not_false_eq_true, if_true, if_false, ite_not]
    split
    · exact D.update_length x g fx
    · rw [ih]; exact D.update_length x g fx

lemma lbfgs_length (E : Engine F) (D : Driver F) (logging : Bool) (N : Int) (maxIter : Nat)
    (x0 : List F) : (lbfgs E D logging N maxIter x0).2.2.1.length = x0.length := by
  simp only [lbfgs]
  exact lbfgsLoop_length E D logging N maxIter 1 x0 _ _

/-- `lbfgs` with a zero iteration cap: one initial evaluation, no descent
step, the buffer returned untouched with a non-success status. -/
lemma lbfgs_zero (E : Engine F) (D : Driver F) (logging : Bool) (N : Int) (x0 : List F) :
    lbfgs E D logging N 0 x0 =
      (LBFGS_STOP_MAXITER, (E.gradient x0).1, x0, [Event.evalCalled]) := rfl

/-- `ObjectiveFunction::run` when allocation succeeds: `m_x` holds a buffer
of exactly `N.toNat` entries and the driver was invoked on `N`. -/
lemma run_alloc_ok [Inhabited F] (E : Engine F) (D : Driver F) (ni : Nat) (lg : Bool) (N : Int) :
    ∃ l, (ObjectiveFunction.run E D ni lg true N).m_x = some l ∧ l.length = N.toNat ∧
      Event.lbfgsCalled N ∈ (ObjectiveFunction.run E D ni lg true N).events := by
  refine ⟨(lbfgs E D lg N ni (writeInto (List.replicate N.toNat default) E.initFC)).2.2.1,
    rfl, ?_, ?_⟩
  · rw [lbfgs_length, writeInto_length, List.length_replicate]
  · simp [ObjectiveFunction.run]

/-- A concrete engine over `Int` used to instantiate the abstract model. -/
def wEngine : Engine Int := ⟨[0], fun x => (0, x)⟩

/-- A concrete engine constructor: every argument tuple yields `wEngine`. -/
def wMkEngine : EngineArgs Int → Engine Int := fun _ => wEngine

/-- A concrete driver over `Int` whose update adds `1` to every entry and
which never reports convergence. -/
def wDriver : Driver Int :=
  { update := fun x _ _ => x.map (· + 1)
    converged := fun _ _ => false
    norm := fun _ => 0
    stepsize := 0
    update_length := fun x _ _ => by simp }

/-- Concrete call arguments: one sequence position, one site state, one
thread, iteration cap `1`. -/
def wArgs1 : Args Int :=
  { biomolecule := 1
    num_site_states := 1
    msa_file := "msa.fa"
    seqs_len := 1
    seqid := 0
    lambda_h := 0
    lambda_J := 0
    max_iteration := 1
    num_threads := 1
    verbose := false }

/-- `wArgs1` with the iteration cap set to `0`. -/
def wArgs0 : Args Int := { wArgs1 with max_iteration := 0 }

/-- `wArgs1` with three threads requested. -/
def wArgs3 : Args Int := { wArgs1 with num_threads := 3 }

/-- `wArgs1` with `L = 3`, `Q = 2`. -/
def wArgsLQ : Args Int := { wArgs1 with seqs_len := 3, num_site_states := 2 }

/-- `wArgs1` with every statics-only argument changed. -/
def wArgsAlt : Args Int :=
  { wArgs1 with
    biomolecule := 2
    msa_file := "other.fa"
    seqid := 5
    lambda_h := 9
    lambda_J := 7
    max_iteration := 6
    verbose := true }

/-- Concrete statics as captured by a first call. -/
def wStatics : Statics Int := ⟨wEngine, 1, false⟩

/-- When the thread check passes, a `plmdcaBackend` call reduces to an
`ObjectiveFunction::run` on `total_num_params` of the current call, with
the engine, iteration cap and verbosity drawn from the statics (first
call: freshly captured). -/
lemma backend_returned [Inhabited F] (openmp : Bool) (mkEngine : EngineArgs F → Engine F)
    (D : Driver F) (allocOk : Bool) (a : Args F) (st : Option (Statics F))
    (hcond : ¬(¬ openmp = true ∧ 1 < a.num_threads)) :
    ∃ (E : Engine F) (ni : Nat) (lg : Bool) (pre : List (Event F)),
      plmdcaBackend openmp mkEngine D allocOk a st =
        (CallRes.returned (ObjectiveFunction.run E D ni lg allocOk
            (total_num_params a.seqs_len a.num_site_states)).m_x,
         pre ++ (ObjectiveFunction.run E D ni lg allocOk
            (total_num_params a.seqs_len a.num_site_states)).events,
         some ⟨E, ni, lg⟩) := by
  cases st with
  | none =>
    refine ⟨mkEngine a.engineArgs, a.max_iteration, a.verbose, [Event.engineConstructed], ?_⟩
    simp only [plmdcaBackend]
    rw [if_neg hcond]
    rfl
  | some s =>
    refine ⟨s.plmdca_inst, s.num_iterations, s.logging, [], ?_⟩
    simp only [plmdcaBackend]
    rw [if_neg hcond]
    rfl

/-- Claim C1: for every call to `plmdcaBackend` with `L = seqs_len` and
`Q = num_site_states` that reaches the computation and in which allocation
succeeds, the returned buffer is a parameter vector of length exactly
`N = L*Q + L*(L-1)/2 * Q^2`, the value computed as `total_num_params` and
passed to the adapter's `run` and to the optimizer (stated within the
exact range of the 32-bit machine arithmetic of line 47). -/
theorem C1_returned_length [Inhabited F] (openmp : Bool) (mkEngine : EngineArgs F → Engine F)
    (D : Driver F) (a : Args F) (st : Option (Statics F))
    (hthreads : openmp = true ∨ a.num_threads ≤ 1)
    (h1 : 1 ≤ a.seqs_len) (hQ : 1 ≤ a.num_site_states) (hL : a.seqs_len < UINT_MOD)
    (hbig : a.seqs_len * (a.seqs_len - 1) * a.num_site_states * a.num_site_states < UINT_MOD)
    (hsum : a.seqs_len * a.num_site_states
        + a.seqs_len * (a.seqs_len - 1) * a.num_site_states * a.num_site_states / 2 ≤ INT_MAX) :
    ∃ l, (plmdcaBackend openmp mkEngine D true a st).1 = CallRes.returned (some l) ∧
      l.length = a.seqs_len * a.num_site_states
        + a.seqs_len * (a.seqs_len - 1) / 2 * a.num_site_states ^ 2 ∧
      Event.lbfgsCalled (total_num_params a.seqs_len a.num_site_states)
        ∈ (plmdcaBackend openmp mkEngine D true a st).2.1 := by
  have hcond : ¬(¬ openmp = true ∧ 1 < a.num_threads) := by
    rcases hthreads with h | h
    · intro hc; exact hc.1 h
    · intro hc; omega
  have hNnat : total_num_params a.seqs_len a.num_site_states =
      ((a.seqs_len * a.num_site_states
        + a.seqs_len * (a.seqs_len - 1) / 2 * a.num_site_states ^ 2 : Nat) : Int) :=
    total_num_params_exact _ _ h1 hQ hL hbig hsum
  obtain ⟨E, ni, lg, pre, heq⟩ := backend_returned openmp mkEngine D true a st hcond
  obtain ⟨l, hm, hlen, hmem⟩ :=
    run_alloc_ok E D ni lg (total_num_params a.seqs_len a.num_site_states)
  refine ⟨l, ?_, ?_, ?_⟩
  · rw [heq]; simp [hm]
  · rw [hlen, hNnat, Int.toNat_natCast]
  · rw [heq]
    exact List.mem_append_right pre hmem

/-- Claim C1 witness: a concrete call with `L = 3`, `Q = 2` returns an
`18`-entry buffer. -/
theorem C1_witness :
    ∃ l, (plmdcaBackend true wMkEngine wDriver true wArgsLQ none).1 = CallRes.returned (some l) ∧
      l.length = 3 * 2 + 3 * (3 - 1) / 2 * 2 ^ 2 ∧
      Event.lbfgsCalled (total_num_params 3 2)
        ∈ (plmdcaBackend true wMkEngine wDriver true wArgsLQ none).2.1 :=
  C1_returned_length true wMkEngine wDriver wArgsLQ none (Or.inl rfl) (by decide) (by decide)
    (by decide) (by decide) (by decide)

/-- Claim C2: with `num_threads > 1` and no OpenMP support the backend
raises the configuration error before any computation or allocation: the
whole effect of the call is the `std::cerr` message and the thrown
`std::runtime_error`, the statics (hence the engine) are untouched and no
handle is produced; with `num_threads ≤ 1`, or with OpenMP support, no
such error is raised. -/
theorem C2_thread_config_error [Inhabited F] (openmp : Bool) (mkEngine : EngineArgs F → Engine F)
    (D : Driver F) (allocOk : Bool) (a : Args F) (st : Option (Statics F)) :
    (¬ openmp = true ∧ 1 < a.num_threads →
      plmdcaBackend openmp mkEngine D allocOk a st = (CallRes.thrown, [Event.cerrThreads], st)) ∧
    (openmp = true ∨ a.num_threads ≤ 1 →
      (plmdcaBackend openmp mkEngine D allocOk a st).1 ≠ CallRes.thrown) := by
  constructor
  · intro h
    simp only [plmdcaBackend]
    rw [if_pos h]
  · intro h
    have hcond : ¬(¬ openmp = true ∧ 1 < a.num_threads) := by
      rcases h with h | h
      · intro hc; exact hc.1 h
      · intro hc; omega
    obtain ⟨E, ni, lg, pre, heq⟩ := backend_returned openmp mkEngine D allocOk a st hcond
    rw [heq]
    simp

/-- Claim C2 witness: requesting three threads without OpenMP support
throws before anything happens; the same request with OpenMP support does
not throw. -/
theorem C2_witness :
    plmdcaBackend (F := Int) false wMkEngine wDriver true wArgs3 none =
      (CallRes.thrown, [Event.cerrThreads], none) ∧
    (plmdcaBackend (F := Int) true wMkEngine wDriver true wArgs3 none).1 ≠ CallRes.thrown :=
  ⟨(C2_thread_config_error false wMkEngine wDriver true wArgs3 none).1 ⟨by decide, by decide⟩,
   (C2_thread_config_error true wMkEngine wDriver true wArgs3 none).2 (Or.inl rfl)⟩

/-- Claim C3: when `lbfgs_malloc` returns null, `ObjectiveFunction::run`
prints the diagnostic and returns `1` having called neither
`initFieldsAndCouplings` nor `lbfgs`, `getFieldsAndCouplings` yields
null afterwards, and the backend returns the null handle. -/
theorem C3_alloc_failure [Inhabited F] (E : Engine F) (D : Driver F) (ni : Nat) (lg : Bool)
    (N : Int) (openmp : Bool) (mkEngine : EngineArgs F → Engine F) (a : Args F)
    (st : Option (Statics F)) (hthreads : openmp = true ∨ a.num_threads ≤ 1) :
    ObjectiveFunction.run E D ni lg false N =
      { ret := 1, m_x := none, events := [Event.allocCalled N, Event.allocFailedMsg] } ∧
    (∀ M : Int, Event.lbfgsCalled M ∉ (ObjectiveFunction.run E D ni lg false N).events) ∧
    Event.initFieldsCalled ∉ (ObjectiveFunction.run E D ni lg false N).events ∧
    RunResult.getFieldsAndCouplings (ObjectiveFunction.run E D ni lg false N) = none ∧
    (plmdcaBackend openmp mkEngine D false a st).1 = CallRes.returned none := by
  refine ⟨rfl, ?_, ?_, rfl, ?_⟩
  · intro M; simp [ObjectiveFunction.run]
  · simp [ObjectiveFunction.run]
  · have hcond : ¬(¬ openmp = true ∧ 1 < a.num_threads) := by
      rcases hthreads with h | h
      · intro hc; exact hc.1 h
      · intro hc; omega
    obtain ⟨E', ni', lg', pre, heq⟩ := backend_returned openmp mkEngine D false a st hcond
    rw [heq]
    simp [ObjectiveFunction.run]

/-- Claim C3 witness: a concrete failing allocation. -/
theorem C3_witness :
    ObjectiveFunction.run wEngine wDriver 1 false false 18 =
      { ret := 1, m_x := none, events := [Event.allocCalled 18, Event.allocFailedMsg] } ∧
    (∀ M : Int, Event.lbfgsCalled M ∉ (ObjectiveFunction.run wEngine wDriver 1 false false 18).events) ∧
    Event.initFieldsCalled ∉ (ObjectiveFunction.run wEngine wDriver 1 false false 18).events ∧
    RunResult.getFieldsAndCouplings (ObjectiveFunction.run wEngine wDriver 1 false false 18) = none ∧
    (plmdcaBackend true wMkEngine wDriver false wArgs1 none).1 = CallRes.returned none :=
  C3_alloc_failure wEngine wDriver 1 false 18 true wMkEngine wArgs1 none (Or.inl rfl)

/-- A first call (statics not yet initialized) that passes the thread
check captures the statics from the current arguments and runs on them. -/
lemma backend_first_call [Inhabited F] (openmp : Bool) (mkEngine : EngineArgs F → Engine F)
    (D : Driver F) (allocOk : Bool) (a : Args F)
    (hcond : ¬(¬ openmp = true ∧ 1 < a.num_threads)) :
    plmdcaBackend openmp mkEngine D allocOk a none =
      (CallRes.returned (ObjectiveFunction.run (mkEngine a.engineArgs) D a.max_iteration
          a.verbose allocOk (total_num_params a.seqs_len a.num_site_states)).m_x,
       Event.engineConstructed :: (ObjectiveFunction.run (mkEngine a.engineArgs) D
          a.max_iteration a.verbose allocOk
          (total_num_params a.seqs_len a.num_site_states)).events,
       some ⟨mkEngine a.engineArgs, a.max_iteration, a.verbose⟩) := by
  simp only [plmdcaBackend]
  rw [if_neg hcond]
  rfl

/-- `ObjectiveFunction::run` with a zero iteration cap and a successful
allocation: the engine initializes the buffer, the driver performs the
initial evaluation only, and the buffer comes back exactly as
initialized. -/
lemma run_zero_iter [Inhabited F] (E : Engine F) (D : Driver F) (lg : Bool) (N : Int)
    (hlen : E.initFC.length = N.toNat) :
    ObjectiveFunction.run E D 0 lg true N =
      { ret := LBFGS_STOP_MAXITER
        m_x := some E.initFC
        events := Event.allocCalled N :: Event.initFieldsCalled :: Event.lbfgsCalled N ::
          [Event.evalCalled] ++
          (if lg then [Event.finalLog LBFGS_STOP_MAXITER (E.gradient E.initFC).1] else []) } := by
  have hx0 : writeInto (List.replicate N.toNat (default : F)) E.initFC = E.initFC :=
    writeInto_eq _ _ (by rw [hlen, List.length_replicate])
  simp only [ObjectiveFunction.run, if_true]
  rw [hx0, lbfgs_zero]

/-- Claim C4 (amended): in a process whose first `plmdcaBackend` call has
`max_iteration = 0` (so the captured iteration cap is `0`), a run whose
engine initial vector fills the allocated buffer performs the initial
evaluation but no descent step, and the returned Parameter Vector equals
the Engine's initialize output.  (As stated over every run the claim
fails: the cap is a function-local static, so a later call's
`max_iteration = 0` is ignored in favor of the first call's cap — see the
counterexample.) -/
theorem C4_zero_iterations_amended [Inhabited F] [DecidableEq F] (openmp : Bool)
    (mkEngine : EngineArgs F → Engine F) (D : Driver F) (a : Args F)
    (hthreads : openmp = true ∨ a.num_threads ≤ 1)
    (hiter : a.max_iteration = 0)
    (hlen : (mkEngine a.engineArgs).initFC.length
        = (total_num_params a.seqs_len a.num_site_states).toNat) :
    (plmdcaBackend openmp mkEngine D true a none).1 =
      CallRes.returned (some (mkEngine a.engineArgs).initFC) ∧
    ((plmdcaBackend openmp mkEngine D true a none).2.1).count Event.evalCalled = 1 ∧
    Event.descentStep ∉ (plmdcaBackend openmp mkEngine D true a none).2.1 := by
  have hcond : ¬(¬ openmp = true ∧ 1 < a.num_threads) := by
    rcases hthreads with h | h
    · intro hc; exact hc.1 h
    · intro hc; omega
  rw [backend_first_call openmp mkEngine D true a hcond, hiter,
    run_zero_iter (mkEngine a.engineArgs) D a.verbose _ hlen]
  refine ⟨rfl, ?_, ?_⟩ <;> cases a.verbose <;> simp [List.count_cons]

/-- Claim C4 counterexample: a second call invoked with
`max_iteration = 0` after a first call with `max_iteration = 1` performs a
descent step and does not return the engine's initialize output — the
static iteration cap of the first call governs. -/
theorem C4_counterexample :
    (plmdcaBackend true wMkEngine wDriver true wArgs0
        (plmdcaBackend true wMkEngine wDriver true wArgs1 none).2.2).1 ≠
      CallRes.returned (some (wMkEngine wArgs0.engineArgs).initFC) ∧
    Event.descentStep ∈ (plmdcaBackend true wMkEngine wDriver true wArgs0
        (plmdcaBackend true wMkEngine wDriver true wArgs1 none).2.2).2.1 := by
  decide

/-- Claim C4 witness: a first call with `max_iteration = 0` returns the
engine's initialize output after exactly one evaluation and no descent
step. -/
theorem C4_witness :
    (plmdcaBackend true wMkEngine wDriver true wArgs0 none).1 =
      CallRes.returned (some (wMkEngine wArgs0.engineArgs).initFC) ∧
    ((plmdcaBackend true wMkEngine wDriver true wArgs0 none).2.1).count Event.evalCalled = 1 ∧
    Event.descentStep ∉ (plmdcaBackend true wMkEngine wDriver true wArgs0 none).2.1 :=
  C4_zero_iterations_amended true wMkEngine wDriver wArgs0 (Or.inl rfl) rfl (by decide)

/-- Claim C5: the evaluation callback forwards the engine's result with no
handling of its own, so for every engine satisfying the spec-modelled
contract (total evaluation, never raising), every invocation of the
callback returns normally — no exception crosses the callback boundary
into the Driver — and yields exactly the engine's value. -/
theorem C5_no_throw_across_boundary (gradientFn : List F → Option (F × List F))
    (htotal : ∀ x, (gradientFn x).isSome = true)
    (x g : List F) (n : Int) (step : F) :
    (ObjectiveFunction.evaluate gradientFn x g n step).isSome = true ∧
    ObjectiveFunction.evaluate gradientFn x g n step = gradientFn x :=
  ⟨htotal x, rfl⟩

/-- Claim C5 witness: a concrete total engine evaluation. -/
theorem C5_witness :
    (ObjectiveFunction.evaluate (fun x : List Int => some ((0 : Int), x))
      [1] [0] 1 0).isSome = true ∧
    ObjectiveFunction.evaluate (fun x : List Int => some ((0 : Int), x)) [1] [0] 1 0 =
      some ((0 : Int), [1]) :=
  C5_no_throw_across_boundary (fun x => some ((0 : Int), x)) (fun _ => rfl) [1] [0] 1 0

/-- Claim C6: whenever the Parameter Vector was successfully allocated,
after the optimizer returns — for every driver, hence whatever its
termination status — `getFieldsAndCouplings` still yields the buffer, and
the backend returns it as a non-null vector of length `total_num_params`;
no status makes the handle null or changes the length. -/
theorem C6_buffer_valid_any_status [Inhabited F] (openmp : Bool)
    (mkEngine : EngineArgs F → Engine F) (D : Driver F) (a : Args F) (st : Option (Statics F))
    (hthreads : openmp = true ∨ a.num_threads ≤ 1) :
    (∀ (E : Engine F) (ni : Nat) (lg : Bool),
      ∃ l, RunResult.getFieldsAndCouplings
          (ObjectiveFunction.run E D ni lg true (total_num_params a.seqs_len a.num_site_states))
            = some l ∧
        l.length = (total_num_params a.seqs_len a.num_site_states).toNat) ∧
    ∃ l, (plmdcaBackend openmp mkEngine D true a st).1 = CallRes.returned (some l) ∧
      l.length = (total_num_params a.seqs_len a.num_site_states).toNat := by
  constructor
  · intro E ni lg
    obtain ⟨l, hm, hlen, _⟩ := run_alloc_ok E D ni lg _
    exact ⟨l, hm, hlen⟩
  · have hcond : ¬(¬ openmp = true ∧ 1 < a.num_threads) := by
      rcases hthreads with h | h
      · intro hc; exact hc.1 h
      · intro hc; omega
    obtain ⟨E, ni, lg, pre, heq⟩ := backend_returned openmp mkEngine D true a st hcond
    obtain ⟨l, hm, hlen, _⟩ := run_alloc_ok E D ni lg _
    refine ⟨l, ?_, hlen⟩
    rw [heq]
    simp [hm]

/-- Claim C6 witness: concrete successful run with a driver that never
reports success. -/
theorem C6_witness :
    ∃ l, (plmdcaBackend true wMkEngine wDriver true wArgsLQ none).1 = CallRes.returned (some l) ∧
      l.length = (total_num_params 3 2).toNat :=
  (C6_buffer_valid_any_status true wMkEngine wDriver wArgsLQ none (Or.inl rfl)).2

/-- Claim C7: `freeFieldsAndCouplings` on a null handle frees nothing,
raises no error and returns normally (the heap is untouched and zero
`delete[]` calls happen); on a non-null handle it releases the underlying
allocation exactly once. -/
theorem C7_free_null_noop (heap : List Nat) :
    freeFieldsAndCouplings heap none = (heap, 0) ∧
    ∀ p, freeFieldsAndCouplings heap (some p) = (heap.erase p, 1) :=
  ⟨rfl, fun _ => rfl⟩

/-- Claim C7 witness: a concrete heap. -/
theorem C7_witness :
    freeFieldsAndCouplings [5, 7] none = ([5, 7], 0) ∧
    freeFieldsAndCouplings [5, 7] (some 5) = ([5, 7].erase 5, 1) :=
  ⟨(C7_free_null_noop [5, 7]).1, (C7_free_null_noop [5, 7]).2 5⟩

/-- Claim C8: the progress callback is purely observational: for every
iterate, gradient, objective value, norms, step size and indices it
returns `0` (never requesting termination), leaves the optimization state
exactly as received, emits the iteration index, objective value,
parameter norm, gradient norm and step size when verbosity is enabled,
and emits nothing otherwise. -/
theorem C8_progress_observational (logging : Bool) (s : OptState F)
    (fx xnorm gnorm step : F) (n k ls : Int) :
    (ObjectiveFunction.progress logging s fx xnorm gnorm step n k ls).1 = 0 ∧
    (ObjectiveFunction.progress logging s fx xnorm gnorm step n k ls).2.2 = s ∧
    (logging = false →
      (ObjectiveFunction.progress logging s fx xnorm gnorm step n k ls).2.1 = []) ∧
    (logging = true →
      (ObjectiveFunction.progress logging s fx xnorm gnorm step n k ls).2.1 =
        [Event.progressLog k fx xnorm gnorm step]) := by
  refine ⟨rfl, rfl, ?_, ?_⟩ <;> intro h <;> simp [ObjectiveFunction.progress, h]

/-- Claim C8 witness: one verbose and one silent concrete invocation. -/
theorem C8_witness :
    (ObjectiveFunction.progress true ⟨[1], [2]⟩ (3 : Int) 4 5 6 7 8 9).2.1 =
      [Event.progressLog 8 3 4 5 6] ∧
    (ObjectiveFunction.progress false ⟨[1], [2]⟩ (3 : Int) 4 5 6 7 8 9).2.1 = [] :=
  ⟨(C8_progress_observational true ⟨[1], [2]⟩ 3 4 5 6 7 8 9).2.2.2 rfl,
   (C8_progress_observational false ⟨[1], [2]⟩ 3 4 5 6 7 8 9).2.2.1 rfl⟩

/-- Claim C9: from the second call onward the engine, iteration cap and
verbosity are the statics captured at the first call; a later call's
`msa_file`, `biomolecule`, `seqid`, `lambda_h`, `lambda_J`,
`max_iteration` and `verbose` arguments have no effect: two later calls
agreeing only on `num_threads`, `seqs_len` and `num_site_states` produce
identical outcomes, and the statics stay as captured. -/
theorem C9_later_calls_independent [Inhabited F] (openmp : Bool)
    (mkEngine : EngineArgs F → Engine F) (D : Driver F) (allocOk : Bool)
    (s : Statics F) (a a' : Args F)
    (hnt : a.num_threads = a'.num_threads)
    (hsl : a.seqs_len = a'.seqs_len)
    (hns : a.num_site_states = a'.num_site_states) :
    plmdcaBackend openmp mkEngine D allocOk a (some s) =
      plmdcaBackend openmp mkEngine D allocOk a' (some s) ∧
    (plmdcaBackend openmp mkEngine D allocOk a (some s)).2.2 = some s := by
  constructor
  · simp only [plmdcaBackend, hnt, hsl, hns]
  · by_cases h : ¬ openmp = true ∧ 1 < a.num_threads
    · simp only [plmdcaBackend]
      rw [if_pos h]
    · simp only [plmdcaBackend]
      rw [if_neg h]

/-- Claim C9 witness: two later calls differing in every statics-only
argument give identical outcomes. -/
theorem C9_witness :
    (plmdcaBackend true wMkEngine wDriver true wArgs1 (some wStatics) =
      plmdcaBackend true wMkEngine wDriver true wArgsAlt (some wStatics)) ∧
    (plmdcaBackend true wMkEngine wDriver true wArgs1 (some wStatics)).2.2 = some wStatics :=
  C9_later_calls_independent true wMkEngine wDriver true wStatics wArgs1 wArgsAlt rfl rfl rfl

/-- Claim C10 counterexample: at `L = 46342`, `Q = 1` the intermediate
product `L * (L - 1)` exceeds the 32-bit signed range, yet the computed
`total_num_params` still equals the mathematical value — the computation
is unsigned, so exceeding the signed range does not by itself lose the
value, contrary to the claim's second half. -/
theorem C10_counterexample :
    INT_MAX < 46342 * (46342 - 1) ∧
    total_num_params 46342 1 =
      ((46342 * 1 + 46342 * (46342 - 1) / 2 * 1 ^ 2 : Nat) : Int) := by
  decide

/-- Claim C10 (amended): for `L ≥ 1`, `Q ≥ 1` the truncating division in
`total_num_params` is exact — `L * (L - 1)` is always even — and the
computed value equals the mathematical `L*Q + L*(L-1)/2 * Q^2` provided
every intermediate product stays below `2^32` (the unsigned wrap
threshold) and the final sum is at most `INT_MAX`; only beyond those
bounds does the modulo-`2^32` computation (or the final signed store)
diverge from the mathematical value. -/
theorem C10_division_exact_amended (L Q : Nat) (h1 : 1 ≤ L) (hQ : 1 ≤ Q) (hL : L < UINT_MOD)
    (hbig : L * (L - 1) * Q * Q < UINT_MOD)
    (hsum : L * Q + L * (L - 1) * Q * Q / 2 ≤ INT_MAX) :
    2 ∣ L * (L - 1) ∧
    total_num_params L Q = ((L * Q + L * (L - 1) / 2 * Q ^ 2 : Nat) : Int) :=
  ⟨even_L_mul_pred L, total_num_params_exact L Q h1 hQ hL hbig hsum⟩

/-- Claim C10 witness: the amended bound admits the counterexample's
input, where the signed-range bound of the original claim does not. -/
theorem C10_amended_witness :
    2 ∣ 46342 * (46342 - 1) ∧
    total_num_params 46342 1 =
      ((46342 * 1 + 46342 * (46342 - 1) / 2 * 1 ^ 2 : Nat) : Int) :=
  C10_division_exact_amended 46342 1 (by decide) (by decide) (by decide) (by decide) (by decide)
